import Mathlib

/-!
Verification of the MobiusBLE protocol engine (`src/MobiusDevice.cpp`,
`src/MobiusDevice.h`) against its natural-language specification.

Frames are modelled as `List Nat`, one entry per `uint8_t` byte of the C
arrays.  Multi-byte machine arithmetic is made explicit with `% 256` /
`% 65536`.  The CRC function `MobiusCRC::crc16` lives in `MobiusCRC.h`,
which is not part of the provided sources; the spec treats it as "a pure,
swappable function" whose exact polynomial is an external collaborator, so
every definition that needs it is parameterised by an arbitrary
`crc : List Nat → Nat`.
-/

namespace Mobius

/-- Constant `Mobius::OP_GROUP_REQUEST` from `MobiusDevice.h`. -/
def OP_GROUP_REQUEST : Nat := 0xde

/-- Constant `Mobius::OP_GROUP_CONFIRM` from `MobiusDevice.h`. -/
def OP_GROUP_CONFIRM : Nat := 0xdf

/-- Constant `Mobius::OP_CODE_GET` from `MobiusDevice.h`. -/
def OP_CODE_GET : Nat := 0x17

/-- Constant `Mobius::OP_CODE_SET` from `MobiusDevice.h`. -/
def OP_CODE_SET : Nat := 0x18

/-- Constant `Mobius::RESPONSE_DATA_SUCCESSFUL` from `MobiusDevice.h`. -/
def RESPONSE_DATA_SUCCESSFUL : List Nat := [0xFF, 0xFF]

/-- Constant `Mobius::ATTRIBUTE_CURRENT_SCENE` from `MobiusDevice.h`. -/
def ATTRIBUTE_CURRENT_SCENE : List Nat := [0x91, 0x01, 0x00, 0x01]

end Mobius

/-- Arduino `lowByte` applied to a 16-bit value: the least significant byte. -/
def lowByte (n : Nat) : Nat := n % 256

/-- Arduino `highByte` applied to a 16-bit value: the second byte. -/
def highByte (n : Nat) : Nat := (n / 256) % 256

/-- Embedding of `MobiusDevice::buildRequest` (MobiusDevice.cpp lines
405-444).  `data` is the attribute selector (`length` in the C code is
`data.length` here), `opCode` the `uint8_t` op code, `reserved` and
`messageId` the `uint16_t` arguments; `crc` stands for
`MobiusCRC::crc16`.  The C code fills bytes 0-8, copies the data into
bytes `9 .. 9+length-1`, then computes `crc16(&request[1], requestSize-3)`
— i.e. the `requestSize - 3` bytes starting at index 1, exactly the
header-after-byte-0 plus the data — and stores its low byte at
`requestSize-2` and its high byte at `requestSize-1`. -/
def buildRequest (crc : List Nat → Nat) (data : List Nat) (opCode reserved messageId : Nat) :
    List Nat :=
  let body : List Nat :=
    [0x02, Mobius.OP_GROUP_REQUEST, opCode % 256,
     lowByte messageId, highByte messageId,
     highByte reserved, lowByte reserved,
     lowByte data.length, highByte data.length] ++ data
  let c : Nat := crc (body.drop 1)
  body ++ [lowByte c, highByte c]

/-- Embedding of `MobiusDevice::parseResponseData` (MobiusDevice.cpp lines
505-531).  Returns the extracted data segment; the C code's `dataSize`
out-parameter is the length of the returned list.  A response is accepted
only if it is longer than 11 bytes, starts with `0x02` and carries the
confirm group tag at byte 1; then `dataSize = (response[8] << 8) +
response[7]` bytes are copied from `&response[9]`. -/
def parseResponseData (response : List Nat) : List Nat :=
  if 11 < response.length ∧ response.getD 0 0 = 0x02 ∧
      response.getD 1 0 = Mobius.OP_GROUP_CONFIRM then
    let dataSize : Nat := (response.getD 8 0) * 256 + response.getD 7 0
    (response.drop 9).take dataSize
  else
    []

/-- A concrete stand-in for the external CRC function, used only to
instantiate parametric theorems at closed inputs. -/
def crcZero : List Nat → Nat := fun _ => 0

/-- Embedding of `MobiusDevice::responseSuccessful` (MobiusDevice.cpp lines
537-573).  Mirrors the C control flow: `lengthsValid` first; `idValid` and
`dataSuccess` keep their initial `false` value unless `lengthsValid`
holds; the success-payload loop `for (i = 0; dataSuccess && i < dataSize-1;
i++)` compares `response[10+i]` with `RESPONSE_DATA_SUCCESSFUL[i]` and is
rendered as a short-circuited `List.all` over `List.range (dataSize - 1)`.
The response CRC is deliberately never inspected, matching the
commented-out CRC check in the source. -/
def responseSuccessful (request response : List Nat) : Bool :=
  let lengthsValid : Bool := decide (11 < request.length) && decide (11 < response.length)
  let idValid : Bool :=
    if lengthsValid then
      (request.getD 0 0 == response.getD 0 0) &&
      (response.getD 1 0 == Mobius.OP_GROUP_CONFIRM) &&
      (request.getD 2 0 == response.getD 2 0) &&
      (request.getD 3 0 == response.getD 3 0) &&
      (request.getD 4 0 == response.getD 4 0)
    else false
  let dataSuccess : Bool :=
    if lengthsValid then
      let dataSize : Nat := (response.getD 8 0) * 256 + response.getD 7 0
      ((dataSize == 3) && (response.getD 9 0 == 0x00)) &&
      ((List.range (dataSize - 1)).all fun i =>
        response.getD (10 + i) 0 == Mobius.RESPONSE_DATA_SUCCESSFUL.getD i 0)
    else false
  lengthsValid && idValid && dataSuccess

/-- Characterisation of `responseSuccessful`: it accepts exactly the
responses whose first twelve bytes satisfy the header correlation and the
`{0x00, 0xFF, 0xFF}` success payload, with both frames longer than 11. -/
theorem responseSuccessful_eq_true_iff (request response : List Nat) :
    responseSuccessful request response = true ↔
      (11 < request.length ∧ 11 < response.length ∧
       request.getD 0 0 = response.getD 0 0 ∧
       response.getD 1 0 = Mobius.OP_GROUP_CONFIRM ∧
       request.getD 2 0 = response.getD 2 0 ∧
       request.getD 3 0 = response.getD 3 0 ∧
       request.getD 4 0 = response.getD 4 0 ∧
       response.getD 8 0 * 256 + response.getD 7 0 = 3 ∧
       response.getD 9 0 = 0x00 ∧
       response.getD 10 0 = 0xFF ∧
       response.getD 11 0 = 0xFF) := by
  unfold responseSuccessful
  by_cases hq : 11 < request.length
  · by_cases hs : 11 < response.length
    · simp only [hq, hs, decide_True, Bool.and_self, if_true, Bool.true_and,
        Bool.and_eq_true, beq_iff_eq, List.all_eq_true, true_and]
      constructor
      · rintro ⟨⟨⟨⟨⟨h0, h1⟩, h2⟩, h3⟩, h4⟩, ⟨hdsz, h9⟩, hall⟩
        rw [hdsz] at hall
        have h10 := hall 0 (by simp)
        have h11 := hall 1 (by simp)
        simp only [Mobius.RESPONSE_DATA_SUCCESSFUL, List.getD_cons_zero,
          List.getD_cons_succ] at h10 h11
        exact ⟨h0, h1, h2, h3, h4, hdsz, h9, h10, h11⟩
      · rintro ⟨h0, h1, h2, h3, h4, hdsz, h9, h10, h11⟩
        refine ⟨⟨⟨⟨⟨h0, h1⟩, h2⟩, h3⟩, h4⟩, ⟨hdsz, h9⟩, ?_⟩
        intro x hx
        rw [hdsz] at hx
        have hx2 : x = 0 ∨ x = 1 := by
          have := List.mem_range.mp hx
          omega
        rcases hx2 with rfl | rfl
        · simpa [Mobius.RESPONSE_DATA_SUCCESSFUL] using h10
        · simpa [Mobius.RESPONSE_DATA_SUCCESSFUL] using h11
    · simp [hs]
  · simp [hq]

/-- C2: `responseSuccessful` (the spec's `verifySetSuccess`) returns true
iff both frames are longer than 11 bytes, the start bytes agree, the
response carries the confirm tag `0xDF` at byte 1, the opCode and both
messageId bytes agree, the declared data length is exactly 3, response
byte 9 is `0x00` and bytes 10 and 11 are `0xFF, 0xFF`.  Consequently it is
false whenever the response length is at most 11; flipping any single byte
of the 3-byte success payload turns a true result into false; and writing
any value at an index at or beyond 12 (in particular the trailing checksum
bytes) never affects the result. -/
theorem C2_verifySetSuccess_characterisation (request response : List Nat) :
    (responseSuccessful request response = true ↔
      (11 < request.length ∧ 11 < response.length ∧
       request.getD 0 0 = response.getD 0 0 ∧
       response.getD 1 0 = Mobius.OP_GROUP_CONFIRM ∧
       request.getD 2 0 = response.getD 2 0 ∧
       request.getD 3 0 = response.getD 3 0 ∧
       request.getD 4 0 = response.getD 4 0 ∧
       response.getD 8 0 * 256 + response.getD 7 0 = 3 ∧
       response.getD 9 0 = 0x00 ∧
       response.getD 10 0 = 0xFF ∧
       response.getD 11 0 = 0xFF)) ∧
    (response.length ≤ 11 → responseSuccessful request response = false) ∧
    (∀ j v, 9 ≤ j → j ≤ 11 → v ≠ response.getD j 0 →
      responseSuccessful request response = true →
      responseSuccessful request (response.set j v) = false) ∧
    (∀ j v, 12 ≤ j →
      responseSuccessful request (response.set j v) = responseSuccessful request response) := by
  refine ⟨responseSuccessful_eq_true_iff request response, ?_, ?_, ?_⟩
  · intro hle
    cases h : responseSuccessful request response with
    | false => rfl
    | true => exact absurd ((responseSuccessful_eq_true_iff _ _).mp h).2.1 (by omega)
  · intro j v hj9 hj11 hv htrue
    obtain ⟨hq, hs, h0, h1, h2, h3, h4, hdsz, h9, h10, h11⟩ :=
      (responseSuccessful_eq_true_iff _ _).mp htrue
    cases hset : responseSuccessful request (response.set j v) with
    | false => rfl
    | true =>
      exfalso
      obtain ⟨-, -, -, -, -, -, -, -, g9, g10, g11⟩ :=
        (responseSuccessful_eq_true_iff _ _).mp hset
      have hjlt : j < response.length := by omega
      have hgj : (response.set j v).getD j 0 = v := by
        simp [List.getD_eq_getElem?_getD, List.getElem?_set_self hjlt]
      have hj3 : j = 9 ∨ j = 10 ∨ j = 11 := by omega
      rcases hj3 with rfl | rfl | rfl
      · have hv0 : v = 0x00 := by rw [← hgj, g9]
        exact hv (hv0.trans h9.symm)
      · have hv0 : v = 0xFF := by rw [← hgj, g10]
        exact hv (hv0.trans h10.symm)
      · have hv0 : v = 0xFF := by rw [← hgj, g11]
        exact hv (hv0.trans h11.symm)
  · intro j v hj
    rw [Bool.eq_iff_iff, responseSuccessful_eq_true_iff, responseSuccessful_eq_true_iff]
    have hg : ∀ i, i ≤ 11 → (response.set j v).getD i 0 = response.getD i 0 := by
      intro i hi
      simp [List.getD_eq_getElem?_getD, List.getElem?_set_ne (show j ≠ i by omega)]
    rw [List.length_set, hg 0 (by omega), hg 1 (by omega), hg 2 (by omega), hg 3 (by omega),
      hg 4 (by omega), hg 7 (by omega), hg 8 (by omega), hg 9 (by omega), hg 10 (by omega),
      hg 11 (by omega)]

/-- Witness for C2 at concrete frames: a 12-byte SET request with a 14-byte
success response; flipping payload byte 10, truncating the response, and
rewriting checksum byte 12 behave as the theorem states. -/
theorem C2_verifySetSuccess_characterisation_witness :
    responseSuccessful [2, 0xDE, 0x18, 2, 0, 8, 0, 1, 0, 1, 0, 0]
      [2, 0xDF, 0x18, 2, 0, 0, 0, 3, 0, 0, 0xFF, 0xFF, 9, 9] = true ∧
    responseSuccessful [2, 0xDE, 0x18, 2, 0, 8, 0, 1, 0, 1, 0, 0]
      ([2, 0xDF, 0x18, 2, 0, 0, 0, 3, 0, 0, 0xFF, 0xFF, 9, 9].set 10 7) = false ∧
    responseSuccessful [2, 0xDE, 0x18, 2, 0, 8, 0, 1, 0, 1, 0, 0] [] = false ∧
    responseSuccessful [2, 0xDE, 0x18, 2, 0, 8, 0, 1, 0, 1, 0, 0]
      ([2, 0xDF, 0x18, 2, 0, 0, 0, 3, 0, 0, 0xFF, 0xFF, 9, 9].set 12 0) =
      responseSuccessful [2, 0xDE, 0x18, 2, 0, 8, 0, 1, 0, 1, 0, 0]
        [2, 0xDF, 0x18, 2, 0, 0, 0, 3, 0, 0, 0xFF, 0xFF, 9, 9] := by
  have h := C2_verifySetSuccess_characterisation [2, 0xDE, 0x18, 2, 0, 8, 0, 1, 0, 1, 0, 0]
    [2, 0xDF, 0x18, 2, 0, 0, 0, 3, 0, 0, 0xFF, 0xFF, 9, 9]
  have htrue := h.1.mpr (by decide)
  refine ⟨htrue, ?_, ?_, ?_⟩
  · exact h.2.2.1 10 7 (by decide) (by decide) (by decide) htrue
  · exact (C2_verifySetSuccess_characterisation
      [2, 0xDE, 0x18, 2, 0, 8, 0, 1, 0, 1, 0, 0] []).2.1 (by decide)
  · exact h.2.2.2 12 0 (by decide)

/-- `buildRequest` always produces a frame of length `data.length + 11`. -/
theorem buildRequest_length (crc : List Nat → Nat) (data : List Nat)
    (opCode reserved messageId : Nat) :
    (buildRequest crc data opCode reserved messageId).length = data.length + 11 := by
  simp [buildRequest]

/-- The byte range the CRC of a built request is computed over — the
`requestSize - 3` bytes starting at index 1 — is exactly the header after
the start byte followed by the data. -/
theorem buildRequest_crc_range (crc : List Nat → Nat) (data : List Nat)
    (opCode reserved messageId : Nat) :
    ((buildRequest crc data opCode reserved messageId).drop 1).take
        ((buildRequest crc data opCode reserved messageId).length - 3)
      = [Mobius.OP_GROUP_REQUEST, opCode % 256, lowByte messageId, highByte messageId,
         highByte reserved, lowByte reserved, lowByte data.length, highByte data.length]
        ++ data := by
  unfold buildRequest
  simp only [List.cons_append, List.nil_append, List.length_append, List.length_cons,
    List.length_nil, List.drop_succ_cons, List.drop_zero]
  rw [show data.length + (0 + 1 + 1) + 1 + 1 + 1 + 1 + 1 + 1 + 1 + 1 + 1 - 3
      = data.length + 8 from by omega]
  simp only [List.take_succ_cons, List.cons_append, List.nil_append]
  rw [List.take_left' rfl]

/-- C5: for every CRC function, selector of length `L`, opCode, reserved
word and messageId, `buildRequest` produces a frame of total length
`L + 11` laid out as byte 0 `0x02`, byte 1 the request tag `0xDE`, byte 2
the opCode, bytes 3-4 the messageId little-endian (low byte first),
bytes 5-6 the reserved word big-endian (high byte first), bytes 7-8 `L`
little-endian, bytes `9 .. 9+L-1` the selector, and the last two bytes
the 16-bit checksum over the `total - 3` bytes of the frame starting at
byte 1 (i.e. everything but byte 0 and the checksum itself), stored
little-endian. -/
theorem C5_buildRequest_layout (crc : List Nat → Nat) (data : List Nat)
    (opCode reserved messageId : Nat) :
    (buildRequest crc data opCode reserved messageId).length = data.length + 11 ∧
    buildRequest crc data opCode reserved messageId
      = [0x02, Mobius.OP_GROUP_REQUEST, opCode % 256,
         messageId % 256, messageId / 256 % 256,
         reserved / 256 % 256, reserved % 256,
         data.length % 256, data.length / 256 % 256]
        ++ data
        ++ [crc (((buildRequest crc data opCode reserved messageId).drop 1).take
              ((buildRequest crc data opCode reserved messageId).length - 3)) % 256,
            crc (((buildRequest crc data opCode reserved messageId).drop 1).take
              ((buildRequest crc data opCode reserved messageId).length - 3)) / 256 % 256] := by
  refine ⟨buildRequest_length crc data opCode reserved messageId, ?_⟩
  rw [buildRequest_crc_range]
  simp [buildRequest, lowByte, highByte]

/-- Decoding a frame of the confirm shape recovers the embedded data segment. -/
theorem parseResponseData_shape (x2 x3 x4 x5 x6 cLo cHi : Nat) (data : List Nat)
    (h1 : 0 < data.length) (h2 : data.length < 65536) :
    parseResponseData
      (([0x02, Mobius.OP_GROUP_CONFIRM, x2, x3, x4, x5, x6,
         lowByte data.length, highByte data.length] ++ data) ++ [cLo, cHi]) = data := by
  have hcons : (([0x02, Mobius.OP_GROUP_CONFIRM, x2, x3, x4, x5, x6,
      lowByte data.length, highByte data.length] ++ data) ++ [cLo, cHi])
      = 0x02 :: Mobius.OP_GROUP_CONFIRM :: x2 :: x3 :: x4 :: x5 :: x6 ::
        lowByte data.length :: highByte data.length :: (data ++ [cLo, cHi]) := by
    simp
  rw [hcons]
  unfold parseResponseData
  rw [if_pos]
  · simp only [List.getD_cons_succ, List.getD_cons_zero, List.drop_succ_cons, List.drop_zero]
    have hds : highByte data.length * 256 + lowByte data.length = data.length := by
      unfold highByte lowByte
      omega
    rw [hds, List.take_left' rfl]
  · refine ⟨?_, rfl, rfl⟩
    simp only [List.length_cons, List.length_append, List.length_cons, List.length_nil]
    omega

/-- C1 (claim as stated is false): encoding with `buildRequest` and decoding
the very same unmodified frame with `parseResponseData` does not recover the
selector, because `buildRequest` writes the request group tag `0xDE` at
byte 1 while `parseResponseData` accepts only the confirm tag `0xDF`.
Concretely, for the one-byte selector `[0xAB]` the parse returns `[]`. -/
theorem C1_counterexample :
    parseResponseData (buildRequest crcZero [0xAB] Mobius.OP_CODE_GET 0 2) = [] ∧
    [] ≠ [0xAB] := by
  constructor
  · rfl
  · decide

/-- C1 (amended): for every CRC function, attribute selector with length at
least 1 (and fitting the 16-bit length field), opCode, reserved word and
messageId, encoding with `buildRequest` and then decoding the frame after
replacing its group byte (byte 1) by the confirm tag `0xDF` — the one
change the counterexample forces, since `parseResponseData` accepts only
confirm frames while `buildRequest` emits the request tag `0xDE` — yields
exactly the original selector bytes as the data segment. -/
theorem C1_roundtrip_on_confirm_tag (crc : List Nat → Nat) (data : List Nat)
    (opCode reserved messageId : Nat)
    (h1 : 0 < data.length) (h2 : data.length < 65536) :
    parseResponseData
      ((buildRequest crc data opCode reserved messageId).set 1 Mobius.OP_GROUP_CONFIRM)
      = data := by
  have hframe : (buildRequest crc data opCode reserved messageId).set 1 Mobius.OP_GROUP_CONFIRM
      = ([0x02, Mobius.OP_GROUP_CONFIRM, opCode % 256, lowByte messageId, highByte messageId,
          highByte reserved, lowByte reserved, lowByte data.length, highByte data.length] ++ data)
        ++ [lowByte (crc ([Mobius.OP_GROUP_REQUEST, opCode % 256, lowByte messageId,
              highByte messageId, highByte reserved, lowByte reserved, lowByte data.length,
              highByte data.length] ++ data)),
            highByte (crc ([Mobius.OP_GROUP_REQUEST, opCode % 256, lowByte messageId,
              highByte messageId, highByte reserved, lowByte reserved, lowByte data.length,
              highByte data.length] ++ data))] := by
    simp [buildRequest]
  rw [hframe]
  exact parseResponseData_shape _ _ _ _ _ _ _ data h1 h2

/-- Witness for C1's amended theorem at the concrete selector `[0xAB]`. -/
theorem C1_roundtrip_on_confirm_tag_witness :
    0 < [(0xAB : Nat)].length ∧ [(0xAB : Nat)].length < 65536 ∧
    parseResponseData
      ((buildRequest crcZero [0xAB] Mobius.OP_CODE_GET 0 2).set 1 Mobius.OP_GROUP_CONFIRM)
      = [0xAB] :=
  ⟨by decide, by decide,
    C1_roundtrip_on_confirm_tag crcZero [0xAB] Mobius.OP_CODE_GET 0 2 (by decide) (by decide)⟩

/-- Session state relevant to message numbering: the `_messageId` member of
`MobiusDevice` (MobiusDevice.h line 154). -/
structure DeviceState where
  messageId : Nat

/-- Embedding of the `_messageId` handling in `MobiusDevice::connect`
(MobiusDevice.cpp lines 107-112): the counter is reset to 2 before the
connection attempt, so immediately after a successful connect it is 2. -/
def connectResetMessageId (s : DeviceState) : DeviceState :=
  { s with messageId := 2 }

/-- Stateful wrapper of `buildRequest` capturing lines 415-418: the frame
embeds the current `_messageId` (bytes 3-4, little-endian) and
`_messageId++` advances the 16-bit counter with wraparound. -/
def buildRequestSt (crc : List Nat → Nat) (data : List Nat) (opCode reserved : Nat)
    (s : DeviceState) : List Nat × DeviceState :=
  (buildRequest crc data opCode reserved s.messageId, ⟨(s.messageId + 1) % 65536⟩)

/-- The messageId carried by a frame: byte 3 is the low byte, byte 4 the
high byte. -/
def frameMessageId (frame : List Nat) : Nat :=
  frame.getD 3 0 + 256 * frame.getD 4 0

/-- A built frame carries the builder's current messageId reduced mod 2^16. -/
theorem frameMessageId_buildRequest (crc : List Nat → Nat) (data : List Nat)
    (opCode reserved messageId : Nat) :
    frameMessageId (buildRequest crc data opCode reserved messageId) = messageId % 65536 := by
  unfold frameMessageId buildRequest lowByte highByte
  simp only [List.cons_append, List.getD_cons_succ, List.getD_cons_zero]
  omega

/-- C6: within one session the messageId embedded in a built request frame
strictly increases by exactly 1 (mod 2^16) from each frame to the next one
built, and the first frame built immediately after a successful connect
(which resets the counter to 2) carries messageId 2. -/
theorem C6_messageId_increments :
    (∀ (crcA crcB : List Nat → Nat) (dA dB : List Nat) (opA opB rA rB : Nat)
        (s : DeviceState),
      frameMessageId (buildRequestSt crcB dB opB rB (buildRequestSt crcA dA opA rA s).2).1
        = (frameMessageId (buildRequestSt crcA dA opA rA s).1 + 1) % 65536) ∧
    (∀ (crc : List Nat → Nat) (data : List Nat) (opCode reserved : Nat) (s : DeviceState),
      frameMessageId (buildRequestSt crc data opCode reserved (connectResetMessageId s)).1
        = 2) := by
  constructor
  · intro crcA crcB dA dB opA opB rA rB s
    dsimp only [buildRequestSt]
    rw [frameMessageId_buildRequest, frameMessageId_buildRequest]
    omega
  · intro crc data opCode reserved s
    dsimp only [buildRequestSt, connectResetMessageId]
    rw [frameMessageId_buildRequest]

/-- Transport behaviour consumed by `MobiusDevice::sendRequest`:
`writeOk` is the result of `_requestChar.writeValue`, `valueUpdated i` the
result of `_responseChar.valueUpdated()` on the i-th loop iteration, and
`readValue i` the bytes `_responseChar.readValue` would deliver on that
iteration (the 255-byte buffer cap is applied at the use site). -/
structure Transport where
  writeOk : Bool
  valueUpdated : Nat → Bool
  readValue : Nat → List Nat

/-- The polling loop of `MobiusDevice::sendRequest` (MobiusDevice.cpp lines
470-486), `for (i = 0; sent && !received && i < 5; i++)`: each iteration
polls `valueUpdated`; on an update the buffer is read (at most 255 bytes)
and becomes the response, and `received` is set iff it is non-empty.
Returns the response together with the number of poll iterations made
(instrumentation supporting the spec's count of poll attempts). -/
def sendRequestLoop (t : Transport) : Nat → Nat → List Nat → Bool → List Nat × Nat
  | 0, i, response, _ => (response, i)
  | fuel+1, i, response, received =>
    if received then (response, i)
    else if t.valueUpdated i then
      let v := (t.readValue i).take 255
      sendRequestLoop t fuel (i+1) v (decide (0 < v.length))
    else
      sendRequestLoop t fuel (i+1) response received

/-- Embedding of `MobiusDevice::sendRequest` (MobiusDevice.cpp lines
452-498).  The request bytes never influence the control flow, so the
model is a function of the transport behaviour alone.  The response starts
empty with size 0; if the characteristic write fails the loop guard
`sent && ...` is false at once and the empty response is returned after 0
polls; otherwise up to 5 poll iterations run.  The first component is the
returned byte array, the second the number of polls performed. -/
def sendRequest (t : Transport) : List Nat × Nat :=
  if t.writeOk then sendRequestLoop t 5 0 [] false else ([], 0)

/-- Once `received` is true the loop returns immediately. -/
theorem sendRequestLoop_received (t : Transport) (fuel i : Nat) (response : List Nat) :
    sendRequestLoop t fuel i response true = (response, i) := by
  cases fuel <;> simp [sendRequestLoop]

/-- If the first productive poll (updated with non-empty data) is at
relative step `k`, the loop stops right there and returns those bytes. -/
theorem sendRequestLoop_first_hit (t : Transport) :
    ∀ (k fuel i : Nat), k < fuel →
    t.valueUpdated (i + k) = true →
    0 < ((t.readValue (i + k)).take 255).length →
    (∀ j, j < k → t.valueUpdated (i + j) = true →
      ((t.readValue (i + j)).take 255).length = 0) →
    sendRequestLoop t fuel i [] false = ((t.readValue (i + k)).take 255, i + k + 1) := by
  intro k
  induction k with
  | zero =>
    intro fuel i hk hupd hlen _
    cases fuel with
    | zero => omega
    | succ fuel =>
      simp only [Nat.add_zero] at hupd hlen ⊢
      simp only [sendRequestLoop]
      rw [if_neg (by simp), if_pos hupd]
      rw [decide_eq_true hlen, sendRequestLoop_received]
  | succ k ih =>
    intro fuel i hk hupd hlen hprev
    have hidx : i + (k + 1) = (i + 1) + k := by omega
    rw [hidx] at hupd hlen ⊢
    cases fuel with
    | zero => omega
    | succ fuel =>
      have hstep : ∀ j, j < k → t.valueUpdated ((i + 1) + j) = true →
          ((t.readValue ((i + 1) + j)).take 255).length = 0 := by
        intro j hj hu
        have h2 : i + (j + 1) = (i + 1) + j := by omega
        rw [← h2] at hu ⊢
        exact hprev (j + 1) (by omega) hu
      simp only [sendRequestLoop]
      rw [if_neg (by simp)]
      by_cases h0 : t.valueUpdated i = true
      · rw [if_pos h0]
        have hempty : ((t.readValue i).take 255).length = 0 := by
          have h3 := hprev 0 (by omega)
          simpa using h3 (by simpa using h0)
        have hvnil : (t.readValue i).take 255 = [] := List.length_eq_zero.mp hempty
        simp only [hvnil, List.length_nil]
        rw [show decide (0 < 0) = false from rfl]
        exact ih fuel (i + 1) (by omega) hupd hlen hstep
      · rw [if_neg h0]
        exact ih fuel (i + 1) (by omega) hupd hlen hstep

/-- If no poll within the budget reports an update, the loop runs through
its whole fuel and returns the empty response. -/
theorem sendRequestLoop_no_update (t : Transport) :
    ∀ (fuel i : Nat), (∀ j, j < fuel → t.valueUpdated (i + j) = false) →
    sendRequestLoop t fuel i [] false = ([], i + fuel) := by
  intro fuel
  induction fuel with
  | zero => intro i _; simp [sendRequestLoop]
  | succ fuel ih =>
    intro i hno
    have h0 : t.valueUpdated i = false := by simpa using hno 0 (by omega)
    simp only [sendRequestLoop]
    rw [if_neg (by simp), if_neg (by simp [h0])]
    rw [ih (i + 1) (fun j hj => by
      have h2 : i + (j + 1) = (i + 1) + j := by omega
      rw [← h2]
      exact hno (j + 1) (by omega))]
    rw [Prod.mk.injEq]
    exact ⟨rfl, by omega⟩

/-- C4: for every request exchange, `sendRequest` behaves as follows.  If
the characteristic write fails it returns the empty response immediately,
with 0 polls of `valueUpdated`.  If the write succeeds but no poll ever
reports an update, it polls exactly 5 times — never fewer, never more —
and returns the empty response.  And if polling reaches an update carrying
data of non-zero length, polling stops right there and those bytes are
returned. -/
theorem C4_sendRequest_polling (t : Transport) :
    (t.writeOk = false → sendRequest t = ([], 0)) ∧
    (t.writeOk = true → (∀ i, i < 5 → t.valueUpdated i = false) →
      sendRequest t = ([], 5)) ∧
    (∀ i, i < 5 → t.writeOk = true → t.valueUpdated i = true →
      0 < ((t.readValue i).take 255).length →
      (∀ j, j < i → t.valueUpdated j = true → ((t.readValue j).take 255).length = 0) →
      sendRequest t = ((t.readValue i).take 255, i + 1)) := by
  refine ⟨?_, ?_, ?_⟩
  · intro hw
    simp [sendRequest, hw]
  · intro hw hno
    unfold sendRequest
    rw [if_pos hw, sendRequestLoop_no_update t 5 0 (fun j hj => by simpa using hno j (by omega))]
  · intro i hi hw hupd hlen hprev
    unfold sendRequest
    rw [if_pos hw]
    have h := sendRequestLoop_first_hit t i 5 0 (by omega)
      (by simpa using hupd) (by simpa using hlen)
      (fun j hj hu => by simpa using hprev j hj (by simpa using hu))
    simpa using h

/-- A transport whose characteristic write fails. -/
def transportNoWrite : Transport :=
  ⟨false, fun _ => true, fun _ => [1]⟩

/-- A transport that writes fine but never signals an updated value. -/
def transportSilent : Transport :=
  ⟨true, fun _ => false, fun _ => [1]⟩

/-- A transport that writes fine and signals a two-byte response on its
third poll (index 2). -/
def transportAnswer : Transport :=
  ⟨true, fun i => decide (i = 2), fun _ => [7, 8]⟩

/-- Witness for C4 at three concrete transports: failed write (0 polls),
silent transport (exactly 5 polls, empty response), and a response
arriving at poll index 2 (3 polls, bytes returned). -/
theorem C4_sendRequest_polling_witness :
    sendRequest transportNoWrite = ([], 0) ∧
    sendRequest transportSilent = ([], 5) ∧
    sendRequest transportAnswer = ([7, 8], 3) := by
  refine ⟨?_, ?_, ?_⟩
  · exact (C4_sendRequest_polling transportNoWrite).1 rfl
  · exact (C4_sendRequest_polling transportSilent).2.1 rfl (by decide)
  · exact (C4_sendRequest_polling transportAnswer).2.2 2 (by decide) rfl (by decide)
      (by decide) (by decide)

/-- Outcomes a peripheral produces during `MobiusDevice::connectTo
(BLEDevice&)`: `connectOk i` is the result of `peripheral.connect()` on
composite attempt `i`; `discoverOk i j` the result of
`peripheral.discoverService(...)` on that attempt's inner try `j`; and
`charsOk i j` the result of `connectToCharacteristics(peripheral)` there. -/
structure PeripheralSim where
  connectOk : Nat → Bool
  discoverOk : Nat → Nat → Bool
  charsOk : Nat → Nat → Bool

/-- The inner service-discovery loop of `connectTo(BLEDevice&)`
(MobiusDevice.cpp lines 277-282): `for (j = 0; !charsConnected && j < 3;
j++)`, attempting `discoverService` and, on success, characteristic
resolution. -/
def discoverLoop (sim : PeripheralSim) (i : Nat) : Nat → Nat → Bool → Bool
  | 0, _, charsConnected => charsConnected
  | fuel+1, j, charsConnected =>
    if charsConnected then charsConnected
    else
      let c := if sim.discoverOk i j then sim.charsOk i j else charsConnected
      discoverLoop sim i fuel (j+1) c

/-- The outer composite-attempt loop of `connectTo(BLEDevice&)`
(MobiusDevice.cpp lines 267-297): `for (i = 0; !hasConnected &&
!charsConnected && i < 2; i++)` — note the loop guard exits as soon as
EITHER `hasConnected` or `charsConnected` is true.  Each iteration calls
`peripheral.connect()` and, on success, runs the inner discovery loop.
Returns `charsConnected` (the function's return value) together with the
number of composite attempts performed (instrumentation supporting the
spec's attempt count). -/
def connectToLoop (sim : PeripheralSim) : Nat → Nat → Bool → Bool → Bool × Nat
  | 0, i, _, charsConnected => (charsConnected, i)
  | fuel+1, i, hasConnected, charsConnected =>
    if hasConnected || charsConnected then (charsConnected, i)
    else
      let h := sim.connectOk i
      let c := if h then discoverLoop sim i 3 0 charsConnected else charsConnected
      connectToLoop sim fuel (i+1) h c

/-- Embedding of `MobiusDevice::connectTo(BLEDevice&)` (MobiusDevice.cpp
lines 261-301): the composite loop starts with both flags false and a
budget of 2 attempts. -/
def connectToPeripheral (sim : PeripheralSim) : Bool × Nat :=
  connectToLoop sim 2 0 false false

/-- A peripheral whose first composite attempt connects but fails
characteristic resolution on every inner try, and whose second attempt
would succeed throughout. -/
def simFirstCharsFail : PeripheralSim :=
  ⟨fun _ => true, fun _ _ => true, fun i _ => decide (i = 1)⟩

/-- C3 (the code contradicts the claim): on a peripheral whose first
attempt connects but cannot resolve characteristics, `connectTo` performs
only ONE composite attempt and returns failure — the loop guard
`!hasConnected && !charsConnected` exits once `connect()` alone has
succeeded — even though the second attempt would have succeeded.  The
claim (and the spec's state machine) say a second full attempt is made. -/
theorem C3_single_attempt_on_chars_failure :
    connectToPeripheral simFirstCharsFail = (false, 1) ∧
    simFirstCharsFail.connectOk 0 = true ∧
    (∀ j, simFirstCharsFail.discoverOk 0 j = true) ∧
    (∀ j, simFirstCharsFail.charsOk 0 j = false) ∧
    (∀ j, simFirstCharsFail.charsOk 1 j = true) := by
  refine ⟨rfl, rfl, fun j => rfl, fun j => rfl, fun j => rfl⟩

/-- Capability flags of one GATT characteristic as consulted by
`connectToCharacteristics`: whether `peripheral.characteristic(...)`
returns a valid handle, and the results of `canWrite()`, `canSubscribe()`
and `subscribe()`. -/
structure CharProps where
  present : Bool
  canWrite : Bool
  canSubscribe : Bool
  subscribeOk : Bool

/-- The three characteristics `connectToCharacteristics` looks up on the
peripheral: `REQUEST_CHARACTERISTIC`, `RESPONSE_CHARACTERISTIC_1`,
`RESPONSE_CHARACTERISTIC_2`. -/
structure Peripheral where
  requestChar : CharProps
  responseChar1 : CharProps
  responseChar2 : CharProps

/-- The stored characteristic members `_requestChar` and `_responseChar`
of `MobiusDevice` (MobiusDevice.h lines 152-153), each recorded as
"resolved" (a valid handle is held) or not. -/
structure CharState where
  requestCharResolved : Bool
  responseCharResolved : Bool

/-- Embedding of `MobiusDevice::connectToCharacteristics` (MobiusDevice.cpp
lines 313-345).  `_requestChar` is assigned the request characteristic
lookup and `_responseChar` the second response characteristic lookup;
`hasRequestChar` requires presence and writability, each `hasResponseCharN`
presence, subscribability and a successful subscribe.  If any of the three
fails, both stored members are reset to unconnected objects.  Returns the
conjunction of the three checks together with the final stored state. -/
def connectToCharacteristics (p : Peripheral) : Bool × CharState :=
  let requestChar : Bool := p.requestChar.present
  let hasRequestChar : Bool := requestChar && p.requestChar.canWrite
  let hasResponseChar1 : Bool :=
    p.responseChar1.present && p.responseChar1.canSubscribe && p.responseChar1.subscribeOk
  let responseChar : Bool := p.responseChar2.present
  let hasResponseChar2 : Bool :=
    responseChar && p.responseChar2.canSubscribe && p.responseChar2.subscribeOk
  let finalState : CharState :=
    if !hasRequestChar || !hasResponseChar1 || !hasResponseChar2 then
      ⟨false, false⟩
    else
      ⟨requestChar, responseChar⟩
  (hasRequestChar && hasResponseChar1 && hasResponseChar2, finalState)

/-- C8: `connectToCharacteristics` returns true exactly when all three
checks succeed (request characteristic present and writable; each response
characteristic present, subscribable, and successfully subscribed); and
whenever any of the three checks fails, both stored characteristic handles
are reset to unresolved as a unit — no partially resolved handle is ever
retained. -/
theorem C8_connectToCharacteristics_all_or_nothing (p : Peripheral) :
    ((connectToCharacteristics p).1 = true ↔
      ((p.requestChar.present && p.requestChar.canWrite) = true ∧
       (p.responseChar1.present && p.responseChar1.canSubscribe
          && p.responseChar1.subscribeOk) = true ∧
       (p.responseChar2.present && p.responseChar2.canSubscribe
          && p.responseChar2.subscribeOk) = true)) ∧
    (¬ ((p.requestChar.present && p.requestChar.canWrite) = true ∧
        (p.responseChar1.present && p.responseChar1.canSubscribe
           && p.responseChar1.subscribeOk) = true ∧
        (p.responseChar2.present && p.responseChar2.canSubscribe
           && p.responseChar2.subscribeOk) = true) →
      (connectToCharacteristics p).2.requestCharResolved = false ∧
      (connectToCharacteristics p).2.responseCharResolved = false) := by
  constructor
  · dsimp only [connectToCharacteristics]
    simp [and_assoc]
  · intro hfail
    dsimp only [connectToCharacteristics]
    rw [if_pos]
    · exact ⟨rfl, rfl⟩
    · cases hA : (p.requestChar.present && p.requestChar.canWrite) with
      | false => simp
      | true =>
        cases hB : (p.responseChar1.present && p.responseChar1.canSubscribe
            && p.responseChar1.subscribeOk) with
        | false => simp [hA, hB]
        | true =>
          cases hC : (p.responseChar2.present && p.responseChar2.canSubscribe
              && p.responseChar2.subscribeOk) with
          | false => simp [hA, hB, hC]
          | true => exact absurd ⟨hA, hB, hC⟩ hfail

/-- Witness for C8 at a peripheral whose second response characteristic
cannot be subscribed: resolution fails and both handles end unresolved. -/
theorem C8_connectToCharacteristics_all_or_nothing_witness :
    (connectToCharacteristics
      ⟨⟨true, true, true, true⟩, ⟨true, true, true, true⟩, ⟨true, true, false, false⟩⟩).1
      = false ∧
    (connectToCharacteristics
      ⟨⟨true, true, true, true⟩, ⟨true, true, true, true⟩, ⟨true, true, false, false⟩⟩).2
      = ⟨false, false⟩ := by
  have h := C8_connectToCharacteristics_all_or_nothing
    ⟨⟨true, true, true, true⟩, ⟨true, true, true, true⟩, ⟨true, true, false, false⟩⟩
  have h2 := h.2 (by decide)
  refine ⟨?_, ?_⟩
  · cases hr : (connectToCharacteristics
      ⟨⟨true, true, true, true⟩, ⟨true, true, true, true⟩, ⟨true, true, false, false⟩⟩).1 with
    | false => rfl
    | true => exact absurd ((h.1.mp hr).2.2) (by decide)
  · cases h2 with
    | intro hx hy =>
      cases hs : (connectToCharacteristics
        ⟨⟨true, true, true, true⟩, ⟨true, true, true, true⟩, ⟨true, true, false, false⟩⟩).2 with
    | mk a b =>
      rw [hs] at hx hy
      simp at hx hy
      rw [hx, hy]

/-- Embedding of `MobiusDevice::setData` (MobiusDevice.cpp lines 352-369):
builds a SET request (`OP_CODE_SET`, reserved word `0x0800`, current
messageId), performs the exchange, verifies the response only when
`0 < resSize && doVerification`, and returns
`verified || !doVerification`. -/
def setData (t : Transport) (crc : List Nat → Nat) (data : List Nat) (messageId : Nat)
    (doVerification : Bool) : Bool :=
  let req := buildRequest crc data Mobius.OP_CODE_SET 0x0800 messageId
  let res := (sendRequest t).1
  let verified : Bool :=
    if decide (0 < res.length) && doVerification then responseSuccessful req res else false
  verified || !doVerification

/-- C7 (claim as stated is false): with verification disabled, `setData`
returns true even when the transport write of the request itself fails —
on a transport whose write fails (so the exchange returns the empty
response after zero polls), `setData ... false` still evaluates to true. -/
theorem C7_counterexample :
    transportNoWrite.writeOk = false ∧
    setData transportNoWrite crcZero [1] 2 false = true := by
  exact ⟨rfl, rfl⟩

/-- C7 (amended): when verification is disabled (`doVerification = false`),
`setData` returns true unconditionally, regardless of the response content
AND regardless of whether the transport write succeeded: the return
expression is `verified || !doVerification`, which is true whenever
`doVerification` is false. -/
theorem C7_setData_skip_verification (t : Transport) (crc : List Nat → Nat)
    (data : List Nat) (messageId : Nat) :
    setData t crc data messageId false = true := by
  simp [setData]

/-- Embedding of the scene extraction of `MobiusDevice::getCurrentScene`
(MobiusDevice.cpp lines 139-151): the exchange's raw response is decoded
by `parseResponseData` (inside `getData`, lines 377-398) into `body`, and
the scene id is read as `scene = body[7]; scene = (scene << 8) + body[6]`
into a `uint16_t`.  The two reads carry no length check in C; indexing is
total here via `getElem?`, so the out-of-bounds case surfaces as `none`. -/
def getCurrentSceneFromResponse (response : List Nat) : Option Nat :=
  let body := parseResponseData response
  match body[7]?, body[6]? with
  | some b7, some b6 => some ((b7 * 256 + b6) % 65536)
  | _, _ => none

/-- A structurally valid GET response whose decoded data segment is exactly
the 7 bytes of the claim's scenario. -/
def responseScene7 : List Nat :=
  [0x02, 0xDF, 0x17, 0x02, 0x00, 0x00, 0x00, 0x07, 0x00,
   0x91, 0x01, 0x00, 0x01, 0x04, 0x02, 0x00, 0x09, 0x09]

/-- C9 (claim as stated is false): on a structurally valid response whose
decoded data segment is exactly `{0x91,0x01,0x00,0x01,0x04,0x02,0x00}`,
the code's reads at 0-based offsets 6-7 of that 7-byte segment do NOT
yield scene id 2: offset 6 holds 0x00 and offset 7 is out of bounds, so
the total embedding returns `none`, not `some 2`. -/
theorem C9_counterexample :
    parseResponseData responseScene7 = [0x91, 0x01, 0x00, 0x01, 0x04, 0x02, 0x00] ∧
    getCurrentSceneFromResponse responseScene7 ≠ some 2 ∧
    getCurrentSceneFromResponse responseScene7 = none := by
  refine ⟨by decide, by decide, by decide⟩

/-- C9 (amended): when the decoded data segment is the 8 bytes
`{0x91,0x01,0x00,0x01,0x04,0x00,0x02,0x00}` — one byte longer than the
claim's segment, so that 0-based offsets 6-7 exist and hold `0x02, 0x00` —
the returned scene id is 2, decoded little-endian from offsets 6-7 of the
data segment. -/
theorem C9_currentScene_decodes_2 (response : List Nat)
    (h : parseResponseData response = [0x91, 0x01, 0x00, 0x01, 0x04, 0x00, 0x02, 0x00]) :
    getCurrentSceneFromResponse response = some 2 := by
  unfold getCurrentSceneFromResponse
  rw [h]
  rfl

/-- Witness for C9's amended theorem at a concrete valid response frame. -/
theorem C9_currentScene_decodes_2_witness :
    parseResponseData
      [0x02, 0xDF, 0x17, 0x02, 0x00, 0x00, 0x00, 0x08, 0x00,
       0x91, 0x01, 0x00, 0x01, 0x04, 0x00, 0x02, 0x00, 0x09, 0x09]
      = [0x91, 0x01, 0x00, 0x01, 0x04, 0x00, 0x02, 0x00] ∧
    getCurrentSceneFromResponse
      [0x02, 0xDF, 0x17, 0x02, 0x00, 0x00, 0x00, 0x08, 0x00,
       0x91, 0x01, 0x00, 0x01, 0x04, 0x00, 0x02, 0x00, 0x09, 0x09]
      = some 2 :=
  ⟨by decide, C9_currentScene_decodes_2 _ (by decide)⟩

/-- C10: `getCurrentScene` reads offsets 6 and 7 of the decoded data
segment with no length check, so whenever the decoded segment is shorter
than 8 bytes — in particular when the exchange produced no structurally
valid response and `parseResponseData` returned the empty segment — the
offset-7 read is out of bounds and the total embedding takes the `none`
branch. -/
theorem C10_scene_read_out_of_bounds (response : List Nat)
    (h : (parseResponseData response).length < 8) :
    getCurrentSceneFromResponse response = none := by
  unfold getCurrentSceneFromResponse
  have h7 : (parseResponseData response)[7]? = none := List.getElem?_eq_none (by omega)
  cases h6 : (parseResponseData response)[6]? <;> simp [h7, h6]

/-- Witness for C10 at the empty response (no structurally valid frame):
the decoded segment is empty and the scene read is out of bounds. -/
theorem C10_scene_read_out_of_bounds_witness :
    (parseResponseData ([] : List Nat)).length < 8 ∧
    getCurrentSceneFromResponse ([] : List Nat) = none :=
  ⟨by decide, C10_scene_read_out_of_bounds [] (by decide)⟩
